import Mathlib

/-!
Verification development for `pomodoro.py`, a Pomodoro-style work/break
timer.  The timer core (the per-tick state update in `main`, the snapshot
save/load helpers, and the console renderer `output`) is shallowly embedded
below.  Times are modelled as exact rationals; the daily ledger, a Python
dict keyed by date strings, is modelled as an association list with
Python's insertion-order update semantics.
-/

namespace Pomodoro

/-- The two timer modes, `state["current_mode"] ∈ {"work", "break"}`. -/
inductive Mode where
  | work : Mode
  | brk : Mode
deriving DecidableEq, Repr

/-- Python-dict lookup `m[k]` / `m.get(k)` on a string-keyed map:
first binding of `k`, if any. -/
def dictGet : List (String × ℚ) → String → Option ℚ
  | [], _ => none
  | (k', v) :: rest, k => if k' = k then some v else dictGet rest k

/-- Python `m.get(k, 0)`: the stored value, defaulting to `0`. -/
def dictGetD (m : List (String × ℚ)) (k : String) : ℚ :=
  (dictGet m k).getD 0

/-- Python dict assignment `m[k] = v`: replace the binding in place if the
key exists, otherwise append it (insertion order preserved). -/
def dictSet : List (String × ℚ) → String → ℚ → List (String × ℚ)
  | [], k, v => [(k, v)]
  | (k', v') :: rest, k, v =>
      if k' = k then (k, v) :: rest else (k', v') :: dictSet rest k v

/-- The mutable timer state dict of `pomodoro.py` (`state` in `main`):
`current_mode`, `remaining_time` (seconds), `daily_work_totals`
(date string → credited seconds), plus the two ephemeral keys
`is_active` and `elapsed_since_last_activity`. -/
structure TimerState where
  current_mode : Mode
  remaining_time : ℚ
  daily_work_totals : List (String × ℚ)
  is_active : Bool
  elapsed_since_last_activity : ℚ
deriving DecidableEq, Repr

/-- The command-line configuration (`parse_arguments`): work and break
durations in minutes (argparse `type=int`, defaults 30), the start mode
(default `"work"`) and the optional `--start-minutes` float. -/
structure Args where
  work_time : ℕ
  break_time : ℕ
  start_mode : Mode
  start_minutes : Option ℚ
deriving DecidableEq, Repr

/-- `work_time_seconds = args.work_time * 60` (line 187). -/
def Args.workTimeSeconds (args : Args) : ℚ := (args.work_time : ℚ) * 60

/-- `break_time_seconds = args.break_time * 60` (line 188). -/
def Args.breakTimeSeconds (args : Args) : ℚ := (args.break_time : ℚ) * 60

/-- `max_idle_cap = work_time_seconds * 2` (line 189). -/
def Args.maxIdleCap (args : Args) : ℚ := args.workTimeSeconds * 2

/-- `work_idle_count_up_rate = (args.work_time * 1.0) / args.break_time`
(line 229). -/
def Args.workIdleCountUpRate (args : Args) : ℚ :=
  (args.work_time : ℚ) / (args.break_time : ℚ)

/-- `break_active_count_up_rate = (args.break_time * 1.0) / args.work_time`
(line 230). -/
def Args.breakActiveCountUpRate (args : Args) : ℚ :=
  (args.break_time : ℚ) / (args.work_time : ℚ)

/-- `IDLE_THRESHOLD_SECONDS = 30` (line 257). -/
def IDLE_THRESHOLD_SECONDS : ℚ := 30

/-- Lines 256–258: recompute the ephemeral fields at the top of each loop
iteration, `elapsed_since_last_activity = current_loop_time -
last_activity_time` and `is_active = elapsed_since_last_activity <= 30`. -/
def classify (s : TimerState) (secondsSinceActivity : ℚ) : TimerState :=
  { s with
    elapsed_since_last_activity := secondsSinceActivity,
    is_active := decide (secondsSinceActivity ≤ IDLE_THRESHOLD_SECONDS) }

/-- Lines 260–277: the mode/activity rule applied to `remaining_time`,
together with the daily-ledger credit (`increment_today_work` folded into
the two crediting branches).  `elapsed` is `time_since_last_loop`. -/
def applyRule (args : Args) (s : TimerState) (elapsed : ℚ)
    (today : String) : TimerState :=
  match s.current_mode, s.is_active with
  | Mode.work, true =>
      { s with
        remaining_time := s.remaining_time - elapsed,
        daily_work_totals :=
          dictSet s.daily_work_totals today
            (dictGetD s.daily_work_totals today + elapsed) }
  | Mode.work, false =>
      { s with
        remaining_time :=
          min (s.remaining_time + args.workIdleCountUpRate * elapsed)
            args.maxIdleCap }
  | Mode.brk, true =>
      { s with
        remaining_time :=
          s.remaining_time + args.breakActiveCountUpRate * elapsed,
        daily_work_totals :=
          dictSet s.daily_work_totals today
            (dictGetD s.daily_work_totals today + elapsed) }
  | Mode.brk, false =>
      { s with remaining_time := s.remaining_time - elapsed }

/-- Lines 279–306: the mode transition.  When `remaining_time <= 0`,
`negative_time = abs(remaining_time)`; Work flips to Break with the new
time set to `break_time_seconds`, then, only `if negative_time > 0`,
increased by `negative_time * work_idle_count_up_rate` and clamped by
`min` with `max_idle_cap`; Break flips to Work with the new time set to
`work_time_seconds`, then, only `if negative_time > 0`, decreased by
`negative_time * break_active_count_up_rate` with no clamp.  The Python
`if/elif` on the pre-assignment mode makes at most one flip per tick. -/
def applyMove (args : Args) (s : TimerState) : TimerState :=
  if s.remaining_time ≤ 0 then
    let negative_time := |s.remaining_time|
    match s.current_mode with
    | Mode.work =>
        let r0 := args.breakTimeSeconds
        let r1 :=
          if 0 < negative_time then
            min (r0 + negative_time * args.workIdleCountUpRate)
              args.maxIdleCap
          else r0
        { s with current_mode := Mode.brk, remaining_time := r1 }
    | Mode.brk =>
        let r0 := args.workTimeSeconds
        let r1 :=
          if 0 < negative_time then
            r0 - negative_time * args.breakActiveCountUpRate
          else r0
        { s with current_mode := Mode.work, remaining_time := r1 }
  else s

/-- The mode/activity rule as invoked by one loop iteration: ephemeral
fields recomputed (lines 256–258), then lines 260–277. -/
def ruleStep (args : Args) (s : TimerState) (elapsed secondsSinceActivity : ℚ)
    (today : String) : TimerState :=
  applyRule args (classify s secondsSinceActivity) elapsed today

/-- One full tick of the main loop (lines 255–306): recompute ephemeral
fields, apply the mode/activity rule and ledger credit, then the mode
transition. -/
def tick (args : Args) (s : TimerState) (elapsed secondsSinceActivity : ℚ)
    (today : String) : TimerState :=
  applyMove args (ruleStep args s elapsed secondsSinceActivity today)

/-- A run of consecutive ticks; each input is
(`elapsed`, `secondsSinceActivity`, `today`). -/
def runTicks (args : Args) (s : TimerState) :
    List (ℚ × ℚ × String) → TimerState
  | [] => s
  | x :: rest => runTicks args (tick args s x.1 x.2.1 x.2.2) rest

/-! ### Persistence and startup -/

/-- A JSON value as produced by `json.load`, with Python's truthiness. -/
inductive JsonValue where
  | null : JsonValue
  | bool : Bool → JsonValue
  | num : ℚ → JsonValue
  | str : String → JsonValue
  | arr : List JsonValue → JsonValue
  | obj : List (String × JsonValue) → JsonValue
deriving Repr

/-- Python truthiness (`if not state:` on line 192): `None`, `False`, `0`,
`""`, `[]` and \x7b\x7d are falsy, everything else truthy. -/
def truthy : JsonValue → Bool
  | JsonValue.null => false
  | JsonValue.bool b => b
  | JsonValue.num q => decide (q ≠ 0)
  | JsonValue.str s => decide (s ≠ "")
  | JsonValue.arr l => !l.isEmpty
  | JsonValue.obj l => !l.isEmpty

/-- `"work"`/`"break"` as persisted in `current_mode`. -/
def modeString : Mode → String
  | Mode.work => "work"
  | Mode.brk => "break"

/-- Parse a persisted `current_mode` string back into a mode. -/
def parseMode : String → Option Mode
  | "work" => some Mode.work
  | "break" => some Mode.brk
  | _ => none

/-- First binding of `k` in a JSON object's entry list. -/
def jsonGet : List (String × JsonValue) → String → Option JsonValue
  | [], _ => none
  | (k', v) :: rest, k => if k' = k then some v else jsonGet rest k

/-- Encode a daily ledger as the JSON object `json.dump` writes for
`daily_work_totals`. -/
def encodeTotals (m : List (String × ℚ)) : List (String × JsonValue) :=
  m.map fun p => (p.1, JsonValue.num p.2)

/-- Decode a persisted `daily_work_totals` object; fails if a value is not
a number. -/
def decodeTotals : List (String × JsonValue) → Option (List (String × ℚ))
  | [] => some []
  | (k, JsonValue.num q) :: rest =>
      (decodeTotals rest).map fun m => (k, q) :: m
  | _ :: _ => none

/-- The persisted snapshot (`pomodoro_state.json`): exactly the three
non-ephemeral fields of the state dict. -/
structure SavedState where
  current_mode : Mode
  remaining_time : ℚ
  daily_work_totals : List (String × ℚ)
deriving DecidableEq, Repr

/-- `save_state_to_file` (lines 124–133): copy the state dict, pop the
ephemeral keys `is_active` and `elapsed_since_last_activity` (and the
deprecated `total_work_today_seconds`, never present here), and dump the
rest as JSON. -/
def save_state_to_file (s : TimerState) : JsonValue :=
  JsonValue.obj
    [("current_mode", JsonValue.str (modeString s.current_mode)),
     ("remaining_time", JsonValue.num s.remaining_time),
     ("daily_work_totals", JsonValue.obj (encodeTotals s.daily_work_totals))]

/-- Read the three persisted fields out of a loaded JSON value, as the
restore branch of `main` (lines 209–219) accesses them; `none` models a
`KeyError`/type error while doing so. -/
def decodeSavedState (v : JsonValue) : Option SavedState :=
  match v with
  | JsonValue.obj l =>
      match jsonGet l "current_mode", jsonGet l "remaining_time",
          jsonGet l "daily_work_totals" with
      | some (JsonValue.str ms), some (JsonValue.num r),
          some (JsonValue.obj tl) =>
          match parseMode ms, decodeTotals tl with
          | some m, some totals => some ⟨m, r, totals⟩
          | _, _ => none
      | _, _, _ => none
  | _ => none

/-- Lines 207–225 (loaded-state branch): override the persisted mode when
it differs from `--start-mode`, override the remaining time when
`--start-minutes` is given, then reset the ephemeral fields
(`is_active = True`, `elapsed_since_last_activity = 0.0`). -/
def reconcile (ld : SavedState) (args : Args) : TimerState :=
  let m := if ld.current_mode ≠ args.start_mode then args.start_mode
           else ld.current_mode
  let r := match args.start_minutes with
    | some sm => sm * 60
    | none => ld.remaining_time
  { current_mode := m, remaining_time := r,
    daily_work_totals := ld.daily_work_totals,
    is_active := true, elapsed_since_last_activity := 0 }

/-- Lines 192–206 and 224–225 (fresh-start branch): mode from
`--start-mode`, remaining time from `--start-minutes` if given, otherwise
the full configured duration of the start mode; empty ledger; ephemeral
fields initialised. -/
def freshState (args : Args) : TimerState :=
  let r := match args.start_minutes with
    | some sm => sm * 60
    | none =>
        match args.start_mode with
        | Mode.work => args.workTimeSeconds
        | Mode.brk => args.breakTimeSeconds
  { current_mode := args.start_mode, remaining_time := r,
    daily_work_totals := [],
    is_active := true, elapsed_since_last_activity := 0 }

/-- Startup state construction (lines 191–225): `load_state_from_file`
returns `none` when the file is missing, otherwise the parsed JSON; any
falsy value takes the fresh-start branch (`if not state:`), a truthy value
is reconciled with the CLI overrides.  `none` as result models an
exception during the restore branch. -/
def initTimerState (loaded : Option JsonValue) (args : Args) :
    Option TimerState :=
  match loaded with
  | none => some (freshState args)
  | some v =>
      if truthy v then (decodeSavedState v).map fun ld => reconcile ld args
      else some (freshState args)

/-! ### Console report -/

/-- Zero-padded two-digit rendering used by the `{:02d}` format specs. -/
def pad2 (n : ℕ) : String :=
  if n < 10 then "0" ++ toString n else toString n

/-- Lines 341–343: `hours, remainder = divmod(max(0, total), 3600);
minutes, _ = divmod(remainder, 60)` rendered as `"HH:MM"`. -/
def formatTotalWork (total : ℚ) : String :=
  let t := max 0 total
  let hours : ℤ := ⌊t / 3600⌋
  let remainder : ℚ := t - 3600 * hours
  let minutes : ℤ := ⌊remainder / 60⌋
  pad2 hours.toNat ++ ":" ++ pad2 minutes.toNat

/-- Line 333 of `output`:
`total_work_val = state["daily_work_totals"][today_str]` — a direct dict
index, so a missing key raises `KeyError` (modelled as `none`); on success
the total is rendered by lines 341–343. -/
def outputTotalWork (s : TimerState) (today : String) : Option String :=
  (dictGet s.daily_work_totals today).map formatTotalWork

/-! ### Ledger lemmas -/

theorem dictGet_dictSet_self (m : List (String × ℚ)) (k : String) (v : ℚ) :
    dictGet (dictSet m k v) k = some v := by
  induction m with
  | nil => simp [dictGet, dictSet]
  | cons p rest ih =>
      rcases p with ⟨pk, pv⟩
      by_cases h : pk = k
      · subst h
        simp [dictGet, dictSet]
      · simp [dictGet, dictSet, h, ih]

theorem dictGet_dictSet_other (m : List (String × ℚ)) (k k' : String) (v : ℚ)
    (h : k' ≠ k) : dictGet (dictSet m k v) k' = dictGet m k' := by
  induction m with
  | nil => simp [dictGet, dictSet, Ne.symm h]
  | cons p rest ih =>
      rcases p with ⟨pk, pv⟩
      by_cases hp : pk = k
      · subst hp
        simp [dictGet, dictSet, Ne.symm h]
      · by_cases hk : pk = k'
        · simp [dictGet, dictSet, hp, hk, h]
        · simp [dictGet, dictSet, hp, hk, ih]

theorem dictGetD_dictSet_self (m : List (String × ℚ)) (k : String) (v : ℚ) :
    dictGetD (dictSet m k v) k = v := by
  simp [dictGetD, dictGet_dictSet_self]

theorem dictGetD_dictSet_other (m : List (String × ℚ)) (k k' : String)
    (v : ℚ) (h : k' ≠ k) : dictGetD (dictSet m k v) k' = dictGetD m k' := by
  simp [dictGetD, dictGet_dictSet_other m k k' v h]

/-- The mode transition never touches the daily ledger. -/
theorem applyMove_daily_work_totals (args : Args) (s : TimerState) :
    (applyMove args s).daily_work_totals = s.daily_work_totals := by
  unfold applyMove
  by_cases h : s.remaining_time ≤ 0 <;> cases s.current_mode <;> simp [h]

/-- The mode/activity rule never changes the mode. -/
theorem ruleStep_current_mode (args : Args) (s : TimerState) (e ssa : ℚ)
    (today : String) :
    (ruleStep args s e ssa today).current_mode = s.current_mode := by
  unfold ruleStep applyRule classify
  cases s.current_mode <;> cases decide (ssa ≤ IDLE_THRESHOLD_SECONDS) <;> simp

/-! ### Claims -/

/-- C1: every Work-mode active tick, before the mode transition, decreases
`remaining_time` by exactly `elapsed` (strictly, since `elapsed > 0`) and
increases `daily_work_totals[today]` by exactly `elapsed`, the entry being
created at `0` first when absent (the `get(today_str, 0)` default). -/
theorem work_active_tick_decrements_and_credits (args : Args)
    (s : TimerState) (e ssa : ℚ) (today : String)
    (hmode : s.current_mode = Mode.work)
    (hact : ssa ≤ IDLE_THRESHOLD_SECONDS) (he : 0 < e) :
    (ruleStep args s e ssa today).remaining_time = s.remaining_time - e ∧
    (ruleStep args s e ssa today).remaining_time < s.remaining_time ∧
    dictGetD (ruleStep args s e ssa today).daily_work_totals today
      = dictGetD s.daily_work_totals today + e := by
  obtain ⟨m, r, d, a, el⟩ := s
  change m = Mode.work at hmode
  subst hmode
  have hcl : classify ⟨Mode.work, r, d, a, el⟩ ssa
      = ⟨Mode.work, r, d, true, ssa⟩ := by
    simp [classify, decide_eq_true hact]
  unfold ruleStep
  rw [hcl]
  refine ⟨rfl, ?_, ?_⟩
  · show r - e < r
    linarith
  · show dictGetD (dictSet d today (dictGetD d today + e)) today
        = dictGetD d today + e
    exact dictGetD_dictSet_self d today _

/-- Witness for C1 at a concrete Work-mode active tick. -/
theorem work_active_tick_witness :
    (ruleStep ⟨30, 30, Mode.work, none⟩ ⟨Mode.work, 1800, [], true, 0⟩
        5 0 "d").remaining_time = (1800 : ℚ) - 5 ∧
    dictGetD (ruleStep ⟨30, 30, Mode.work, none⟩
        ⟨Mode.work, 1800, [], true, 0⟩ 5 0 "d").daily_work_totals "d"
      = dictGetD [] "d" + 5 :=
  ⟨(work_active_tick_decrements_and_credits ⟨30, 30, Mode.work, none⟩
      ⟨Mode.work, 1800, [], true, 0⟩ 5 0 "d" rfl
      (by norm_num [IDLE_THRESHOLD_SECONDS]) (by norm_num)).1,
   (work_active_tick_decrements_and_credits ⟨30, 30, Mode.work, none⟩
      ⟨Mode.work, 1800, [], true, 0⟩ 5 0 "d" rfl
      (by norm_num [IDLE_THRESHOLD_SECONDS]) (by norm_num)).2.2⟩

/-- C2 counterexample: with `--work-time 1 --break-time 3`
(`break_time_seconds = 180 > max_idle_cap = 120`) and a Work-mode active
tick that lands exactly on `remaining_time = 0`, the overshoot is `0`, the
code skips the `if negative_time > 0` adjustment and sets
`remaining_time = 180`, while the claimed always-clamped formula
`min(break + overshoot*rate, cap)` gives `120`. -/
theorem work_overshoot_always_clamped_counterexample :
    (ruleStep ⟨1, 3, Mode.work, none⟩ ⟨Mode.work, 2, [], true, 0⟩ 2 0
      "d").remaining_time ≤ 0 ∧
    (tick ⟨1, 3, Mode.work, none⟩ ⟨Mode.work, 2, [], true, 0⟩ 2 0
      "d").current_mode = Mode.brk ∧
    (tick ⟨1, 3, Mode.work, none⟩ ⟨Mode.work, 2, [], true, 0⟩ 2 0
      "d").remaining_time = 180 ∧
    min (Args.breakTimeSeconds ⟨1, 3, Mode.work, none⟩
        + (-(ruleStep ⟨1, 3, Mode.work, none⟩ ⟨Mode.work, 2, [], true, 0⟩
              2 0 "d").remaining_time)
          * Args.workIdleCountUpRate ⟨1, 3, Mode.work, none⟩)
      (Args.maxIdleCap ⟨1, 3, Mode.work, none⟩) = 120 ∧
    (180 : ℚ) ≠ 120 := by
  norm_num [tick, ruleStep, applyRule, applyMove, classify,
    Args.workIdleCountUpRate, Args.breakActiveCountUpRate,
    Args.breakTimeSeconds, Args.workTimeSeconds, Args.maxIdleCap,
    IDLE_THRESHOLD_SECONDS, dictGetD, dictGet, dictSet]

/-- C2 (amended): on a Work-mode tick whose post-rule `remaining_time` is
`≤ 0`, the mode flips to Break; with `overshoot = -remaining_time`, the new
remaining time is `min(break_time_seconds + overshoot *
work_idle_count_up_rate, max_idle_cap)` when `overshoot > 0`, and exactly
`break_time_seconds` (unclamped) when `overshoot = 0`.  In particular the
1/1801 scenario of the claim holds (see the witness). -/
theorem work_overshoot_flip (args : Args) (s : TimerState) (e ssa : ℚ)
    (today : String) (hmode : s.current_mode = Mode.work)
    (hneg : (ruleStep args s e ssa today).remaining_time ≤ 0) :
    (tick args s e ssa today).current_mode = Mode.brk ∧
    (tick args s e ssa today).remaining_time =
      (if 0 < -(ruleStep args s e ssa today).remaining_time then
        min (args.breakTimeSeconds
            + (-(ruleStep args s e ssa today).remaining_time)
              * args.workIdleCountUpRate)
          args.maxIdleCap
      else args.breakTimeSeconds) := by
  unfold tick
  have hm := ruleStep_current_mode args s e ssa today
  rw [hmode] at hm
  generalize hM : ruleStep args s e ssa today = M at hm hneg ⊢
  obtain ⟨mm, r, d, a, el⟩ := M
  change mm = Mode.work at hm
  subst hm
  change r ≤ 0 at hneg
  show (applyMove args ⟨Mode.work, r, d, a, el⟩).current_mode = Mode.brk ∧ _
  simp only [applyMove, if_pos hneg, abs_of_nonpos hneg]
  exact ⟨trivial, trivial⟩

/-- Witness for C2 (amended), the claim's own scenario: Work with
`remaining_time = 1`, 30-minute work and break, an active tick with
`elapsed = 2` yields Break with `remaining_time = 1801`. -/
theorem work_overshoot_flip_witness :
    (tick ⟨30, 30, Mode.work, none⟩ ⟨Mode.work, 1, [], true, 0⟩ 2 0
      "d").current_mode = Mode.brk ∧
    (tick ⟨30, 30, Mode.work, none⟩ ⟨Mode.work, 1, [], true, 0⟩ 2 0
      "d").remaining_time = 1801 := by
  have h := work_overshoot_flip ⟨30, 30, Mode.work, none⟩
    ⟨Mode.work, 1, [], true, 0⟩ 2 0 "d" rfl
    (by norm_num [ruleStep, applyRule, classify, IDLE_THRESHOLD_SECONDS])
  refine ⟨h.1, ?_⟩
  rw [h.2]
  norm_num [ruleStep, applyRule, classify, IDLE_THRESHOLD_SECONDS,
    Args.workIdleCountUpRate, Args.breakTimeSeconds, Args.workTimeSeconds,
    Args.maxIdleCap]

/-- C3 counterexample: a Break-mode active tick (a count-up sub-state) is
not clamped by the code (line 270 has no `min`): from
`remaining_time = 3600 = max_idle_cap` with rate `1`, ten elapsed seconds
give `3610 > max_idle_cap`. -/
theorem countup_cap_counterexample :
    (ruleStep ⟨30, 30, Mode.work, none⟩ ⟨Mode.brk, 3600, [], true, 0⟩ 10 0
      "d").remaining_time = 3610 ∧
    Args.maxIdleCap ⟨30, 30, Mode.work, none⟩ = 3600 ∧
    ¬ ((ruleStep ⟨30, 30, Mode.work, none⟩ ⟨Mode.brk, 3600, [], true, 0⟩
        10 0 "d").remaining_time
      ≤ Args.maxIdleCap ⟨30, 30, Mode.work, none⟩) := by
  norm_num [ruleStep, applyRule, classify, Args.breakActiveCountUpRate,
    Args.maxIdleCap, Args.workTimeSeconds, IDLE_THRESHOLD_SECONDS]

/-- C3 (amended): of the two count-up sub-states, only Work-idle is
clamped: its post-rule `remaining_time` never exceeds `max_idle_cap`;
the Break-active increment `+= break_active_count_up_rate * elapsed` is
applied with no clamp and may exceed `max_idle_cap`. -/
theorem countup_clamp (args : Args) (s : TimerState) (e ssa : ℚ)
    (today : String) :
    (s.current_mode = Mode.work → ¬ ssa ≤ IDLE_THRESHOLD_SECONDS →
      (ruleStep args s e ssa today).remaining_time ≤ args.maxIdleCap) ∧
    (s.current_mode = Mode.brk → ssa ≤ IDLE_THRESHOLD_SECONDS →
      (ruleStep args s e ssa today).remaining_time
        = s.remaining_time + args.breakActiveCountUpRate * e) := by
  obtain ⟨m, r, d, a, el⟩ := s
  constructor
  · intro hm hidle
    change m = Mode.work at hm
    subst hm
    have hcl : classify ⟨Mode.work, r, d, a, el⟩ ssa
        = ⟨Mode.work, r, d, false, ssa⟩ := by
      simp [classify, decide_eq_false hidle]
    unfold ruleStep
    rw [hcl]
    show min (r + args.workIdleCountUpRate * e) args.maxIdleCap
      ≤ args.maxIdleCap
    exact min_le_right _ _
  · intro hm hact
    change m = Mode.brk at hm
    subst hm
    have hcl : classify ⟨Mode.brk, r, d, a, el⟩ ssa
        = ⟨Mode.brk, r, d, true, ssa⟩ := by
      simp [classify, decide_eq_true hact]
    unfold ruleStep
    rw [hcl]
    rfl

/-- Witness for C3 (amended): a concrete clamped Work-idle tick and a
concrete unclamped Break-active tick. -/
theorem countup_clamp_witness :
    (ruleStep ⟨30, 30, Mode.work, none⟩ ⟨Mode.work, 100, [], true, 0⟩ 5 31
      "d").remaining_time ≤ Args.maxIdleCap ⟨30, 30, Mode.work, none⟩ ∧
    (ruleStep ⟨30, 30, Mode.work, none⟩ ⟨Mode.brk, 3600, [], true, 0⟩ 10 0
      "d").remaining_time
      = (3600 : ℚ)
        + Args.breakActiveCountUpRate ⟨30, 30, Mode.work, none⟩ * 10 :=
  ⟨(countup_clamp ⟨30, 30, Mode.work, none⟩ ⟨Mode.work, 100, [], true, 0⟩
      5 31 "d").1 rfl (by norm_num [IDLE_THRESHOLD_SECONDS]),
   (countup_clamp ⟨30, 30, Mode.work, none⟩ ⟨Mode.brk, 3600, [], true, 0⟩
      10 0 "d").2 rfl (by norm_num [IDLE_THRESHOLD_SECONDS])⟩

/-- C4: on a Break-mode tick whose post-rule `remaining_time` is `≤ 0`,
the mode flips to Work and, with `overshoot = -remaining_time`, the new
remaining time is `work_time_seconds - overshoot *
break_active_count_up_rate`, with no lower clamp (it may be `≤ 0`, see the
witness), and the flip is the only transition of the tick (the final mode
is Work even then). -/
theorem break_overshoot_flip (args : Args) (s : TimerState) (e ssa : ℚ)
    (today : String) (hmode : s.current_mode = Mode.brk)
    (hneg : (ruleStep args s e ssa today).remaining_time ≤ 0) :
    (tick args s e ssa today).current_mode = Mode.work ∧
    (tick args s e ssa today).remaining_time
      = args.workTimeSeconds
        - (-(ruleStep args s e ssa today).remaining_time)
          * args.breakActiveCountUpRate := by
  unfold tick
  have hm := ruleStep_current_mode args s e ssa today
  rw [hmode] at hm
  generalize hM : ruleStep args s e ssa today = M at hm hneg ⊢
  obtain ⟨mm, r, d, a, el⟩ := M
  change mm = Mode.brk at hm
  subst hm
  change r ≤ 0 at hneg
  simp only [applyMove, if_pos hneg, abs_of_nonpos hneg]
  refine ⟨trivial, ?_⟩
  show (if 0 < -r then args.workTimeSeconds - -r * args.breakActiveCountUpRate
      else args.workTimeSeconds) = _
  by_cases h0 : 0 < -r
  · rw [if_pos h0]
  · have hz : -r = 0 := le_antisymm (not_lt.mp h0) (neg_nonneg.mpr hneg)
    rw [if_neg h0, hz]
    ring

/-- Witness for C4: with a 1-minute work period and 30-minute break
period, a huge Break overshoot compensates the new Work period below
zero, and exactly one transition happened (the mode is Work). -/
theorem break_overshoot_flip_witness :
    (tick ⟨1, 30, Mode.work, none⟩ ⟨Mode.brk, 1, [], true, 0⟩ 100 100
      "d").current_mode = Mode.work ∧
    (tick ⟨1, 30, Mode.work, none⟩ ⟨Mode.brk, 1, [], true, 0⟩ 100 100
      "d").remaining_time = -2910 ∧
    (tick ⟨1, 30, Mode.work, none⟩ ⟨Mode.brk, 1, [], true, 0⟩ 100 100
      "d").remaining_time ≤ 0 := by
  have h := break_overshoot_flip ⟨1, 30, Mode.work, none⟩
    ⟨Mode.brk, 1, [], true, 0⟩ 100 100 "d" rfl
    (by norm_num [ruleStep, applyRule, classify, IDLE_THRESHOLD_SECONDS])
  have h2 : (tick ⟨1, 30, Mode.work, none⟩ ⟨Mode.brk, 1, [], true, 0⟩ 100
      100 "d").remaining_time = -2910 := by
    rw [h.2]
    norm_num [ruleStep, applyRule, classify, IDLE_THRESHOLD_SECONDS,
      Args.workTimeSeconds, Args.breakActiveCountUpRate]
  exact ⟨h.1, h2, by rw [h2]; norm_num⟩

/-- C5: a Work-mode idle tick sets `remaining_time` to
`min(remaining_time + elapsed * (work_seconds / break_seconds),
2 * work_seconds)` (the code's rate `work_time / break_time` in minutes
equals `work_time_seconds / break_time_seconds`) and leaves the daily
ledger untouched. -/
theorem work_idle_tick_counts_up (args : Args) (s : TimerState) (e ssa : ℚ)
    (today : String) (hmode : s.current_mode = Mode.work)
    (hidle : ¬ ssa ≤ IDLE_THRESHOLD_SECONDS) (he : 0 ≤ e) :
    (ruleStep args s e ssa today).remaining_time
      = min (s.remaining_time
          + args.workTimeSeconds / args.breakTimeSeconds * e)
          (2 * args.workTimeSeconds) ∧
    (ruleStep args s e ssa today).daily_work_totals
      = s.daily_work_totals := by
  obtain ⟨m, r, d, a, el⟩ := s
  change m = Mode.work at hmode
  subst hmode
  have hcl : classify ⟨Mode.work, r, d, a, el⟩ ssa
      = ⟨Mode.work, r, d, false, ssa⟩ := by
    simp [classify, decide_eq_false hidle]
  unfold ruleStep
  rw [hcl]
  have hrate : args.workTimeSeconds / args.breakTimeSeconds
      = args.workIdleCountUpRate := by
    unfold Args.workTimeSeconds Args.breakTimeSeconds
      Args.workIdleCountUpRate
    rw [mul_comm (args.work_time : ℚ) 60, mul_comm (args.break_time : ℚ) 60]
    exact mul_div_mul_left _ _ (by norm_num)
  constructor
  · show min (r + args.workIdleCountUpRate * e) args.maxIdleCap = _
    rw [hrate, mul_comm (args.workIdleCountUpRate) e]
    unfold Args.maxIdleCap
    rw [mul_comm args.workTimeSeconds 2]
  · rfl

/-- Witness for C5 at a concrete idle Work tick hitting the cap. -/
theorem work_idle_tick_counts_up_witness :
    (ruleStep ⟨30, 30, Mode.work, none⟩ ⟨Mode.work, 3599, [], true, 0⟩ 10
      31 "d").remaining_time
      = min ((3599 : ℚ)
          + Args.workTimeSeconds ⟨30, 30, Mode.work, none⟩
            / Args.breakTimeSeconds ⟨30, 30, Mode.work, none⟩ * 10)
          (2 * Args.workTimeSeconds ⟨30, 30, Mode.work, none⟩) ∧
    (ruleStep ⟨30, 30, Mode.work, none⟩ ⟨Mode.work, 3599, [], true, 0⟩ 10
      31 "d").daily_work_totals = [] :=
  work_idle_tick_counts_up ⟨30, 30, Mode.work, none⟩
    ⟨Mode.work, 3599, [], true, 0⟩ 10 31 "d" rfl
    (by norm_num [IDLE_THRESHOLD_SECONDS]) (by norm_num)

/-- Setting today's entry to its current defaulted value plus zero leaves
every defaulted lookup unchanged (though it may create the key). -/
theorem dictGetD_dictSet_refund (d : List (String × ℚ))
    (today k : String) :
    dictGetD (dictSet d today (dictGetD d today)) k = dictGetD d k := by
  by_cases hk : k = today
  · subst hk
    rw [dictGetD_dictSet_self]
  · exact dictGetD_dictSet_other _ _ _ _ hk

/-- C6 counterexample: from Work mode with `remaining_time = 0`, an empty
ledger and an active `elapsed = 0` tick, `Tick` still fires the mode
transition (`remaining_time` becomes `1800 ≠ 0`) and still creates
today's ledger key (at `0`), so it is not a no-op on either field. -/
theorem tick_zero_elapsed_counterexample :
    (tick ⟨30, 30, Mode.work, none⟩ ⟨Mode.work, 0, [], true, 0⟩ 0 0
      "d").remaining_time = 1800 ∧
    (tick ⟨30, 30, Mode.work, none⟩ ⟨Mode.work, 0, [], true, 0⟩ 0 0
      "d").remaining_time ≠ 0 ∧
    (tick ⟨30, 30, Mode.work, none⟩ ⟨Mode.work, 0, [], true, 0⟩ 0 0
      "d").daily_work_totals = [("d", 0)] ∧
    (tick ⟨30, 30, Mode.work, none⟩ ⟨Mode.work, 0, [], true, 0⟩ 0 0
      "d").daily_work_totals ≠ ([] : List (String × ℚ)) := by
  norm_num [tick, ruleStep, applyRule, applyMove, classify,
    Args.workIdleCountUpRate, Args.breakActiveCountUpRate,
    Args.breakTimeSeconds, Args.workTimeSeconds, Args.maxIdleCap,
    IDLE_THRESHOLD_SECONDS, dictGetD, dictGet, dictSet]

/-- C6 (amended): an `elapsed = 0` tick leaves `remaining_time` unchanged
provided it is positive (else the mode transition still fires) and at most
`max_idle_cap` (else the Work-idle clamp lowers it), and leaves every
defaulted ledger value unchanged — though a crediting sub-state may still
create today's key at value `0`. -/
theorem tick_zero_elapsed (args : Args) (s : TimerState) (ssa : ℚ)
    (today : String) (hpos : 0 < s.remaining_time)
    (hcap : s.remaining_time ≤ args.maxIdleCap) :
    (tick args s 0 ssa today).remaining_time = s.remaining_time ∧
    ∀ k, dictGetD (tick args s 0 ssa today).daily_work_totals k
        = dictGetD s.daily_work_totals k := by
  obtain ⟨m, r, d, a, el⟩ := s
  change 0 < r at hpos
  change r ≤ args.maxIdleCap at hcap
  have hnneg : ¬ r ≤ 0 := not_le.mpr hpos
  unfold tick ruleStep applyRule classify
  cases m <;> cases hb : decide (ssa ≤ IDLE_THRESHOLD_SECONDS) <;>
    simp only [mul_zero, add_zero, sub_zero, min_eq_left hcap, applyMove,
      if_neg hnneg, implies_true, and_true, true_and] <;>
    exact fun k => dictGetD_dictSet_refund d today k

/-- Witness for C6 (amended) at a concrete positive Work-mode state. -/
theorem tick_zero_elapsed_witness :
    (tick ⟨30, 30, Mode.work, none⟩ ⟨Mode.work, 100, [("d", 7)], true, 0⟩
      0 0 "d").remaining_time = 100 ∧
    dictGetD (tick ⟨30, 30, Mode.work, none⟩
      ⟨Mode.work, 100, [("d", 7)], true, 0⟩ 0 0 "d").daily_work_totals "d"
      = dictGetD [("d", 7)] "d" := by
  have h := tick_zero_elapsed ⟨30, 30, Mode.work, none⟩
    ⟨Mode.work, 100, [("d", 7)], true, 0⟩ 0 "d" (by norm_num)
    (by norm_num [Args.maxIdleCap, Args.workTimeSeconds])
  exact ⟨h.1, h.2 "d"⟩

/-- In one tick the ledger is either untouched (the two idle/passive
sub-states) or updated exactly once, at today's key, by adding `elapsed`
to its defaulted current value (the two crediting sub-states). -/
theorem tick_totals_single_credit (args : Args) (s : TimerState)
    (e ssa : ℚ) (today : String) :
    (tick args s e ssa today).daily_work_totals = s.daily_work_totals ∨
    (tick args s e ssa today).daily_work_totals
      = dictSet s.daily_work_totals today
          (dictGetD s.daily_work_totals today + e) := by
  unfold tick
  rw [applyMove_daily_work_totals]
  obtain ⟨m, r, d, a, el⟩ := s
  unfold ruleStep applyRule classify
  cases m <;> cases decide (ssa ≤ IDLE_THRESHOLD_SECONDS) <;> simp

/-- A tick with non-negative `elapsed` never decreases any defaulted
ledger entry. -/
theorem tick_totals_mono (args : Args) (s : TimerState) (e ssa : ℚ)
    (today : String) (he : 0 ≤ e) (k : String) :
    dictGetD s.daily_work_totals k
      ≤ dictGetD (tick args s e ssa today).daily_work_totals k := by
  rcases tick_totals_single_credit args s e ssa today with h | h <;> rw [h]
  by_cases hk : k = today
  · subst hk
    rw [dictGetD_dictSet_self]
    linarith
  · rw [dictGetD_dictSet_other _ _ _ _ hk]

/-- Over a whole run of ticks with non-negative elapsed times, no
defaulted ledger entry ever decreases. -/
theorem runTicks_totals_mono (args : Args) (ins : List (ℚ × ℚ × String))
    (s : TimerState) (h : ∀ x ∈ ins, 0 ≤ x.1) (k : String) :
    dictGetD s.daily_work_totals k
      ≤ dictGetD (runTicks args s ins).daily_work_totals k := by
  induction ins generalizing s with
  | nil => exact le_refl _
  | cons x rest ih =>
      refine le_trans (tick_totals_mono args s x.1 x.2.1 x.2.2 ?_ k) ?_
      · exact h x (List.mem_cons_self x rest)
      · exact ih (tick args s x.1 x.2.1 x.2.2)
          (fun y hy => h y (List.mem_cons_of_mem _ hy))

/-- C7: over any run of ticks with non-negative elapsed times, every
defaulted ledger entry is monotonically non-decreasing; if the starting
ledger is non-negative it stays non-negative; and each single tick either
leaves the ledger untouched or credits exactly `elapsed` to today's entry
once (so no tick is credited under more than one of the four
mode/activity combinations). -/
theorem daily_ledger_invariants (args : Args) (s : TimerState)
    (ins : List (ℚ × ℚ × String)) (h : ∀ x ∈ ins, 0 ≤ x.1) :
    (∀ k, dictGetD s.daily_work_totals k
        ≤ dictGetD (runTicks args s ins).daily_work_totals k) ∧
    ((∀ k, 0 ≤ dictGetD s.daily_work_totals k) →
      ∀ k, 0 ≤ dictGetD (runTicks args s ins).daily_work_totals k) ∧
    (∀ e ssa today,
      (tick args s e ssa today).daily_work_totals = s.daily_work_totals ∨
      (tick args s e ssa today).daily_work_totals
        = dictSet s.daily_work_totals today
            (dictGetD s.daily_work_totals today + e)) := by
  refine ⟨fun k => runTicks_totals_mono args ins s h k, ?_,
    fun e ssa today => tick_totals_single_credit args s e ssa today⟩
  intro h0 k
  exact le_trans (h0 k) (runTicks_totals_mono args ins s h k)

/-- Witness for C7 on a concrete two-tick run from a fresh ledger. -/
theorem daily_ledger_invariants_witness :
    dictGetD ([] : List (String × ℚ)) "d"
      ≤ dictGetD (runTicks ⟨30, 30, Mode.work, none⟩
          ⟨Mode.work, 1800, [], true, 0⟩
          [(5, 0, "d"), (10, 40, "d")]).daily_work_totals "d" ∧
    0 ≤ dictGetD (runTicks ⟨30, 30, Mode.work, none⟩
        ⟨Mode.work, 1800, [], true, 0⟩
        [(5, 0, "d"), (10, 40, "d")]).daily_work_totals "d" := by
  have h := daily_ledger_invariants ⟨30, 30, Mode.work, none⟩
    ⟨Mode.work, 1800, [], true, 0⟩ [(5, 0, "d"), (10, 40, "d")]
    (by norm_num [List.forall_mem_cons])
  exact ⟨h.1 "d", h.2.1 (fun k => le_refl 0) "d"⟩

theorem parseMode_modeString (m : Mode) :
    parseMode (modeString m) = some m := by
  cases m <;> rfl

theorem decodeTotals_encodeTotals (m : List (String × ℚ)) :
    decodeTotals (encodeTotals m) = some m := by
  induction m with
  | nil => rfl
  | cons p rest ih =>
      rcases p with ⟨k, v⟩
      show (decodeTotals (encodeTotals rest)).map (fun m => (k, v) :: m)
        = some ((k, v) :: rest)
      rw [ih]
      rfl

/-- Decoding a snapshot written by `save_state_to_file` recovers exactly
the three persisted fields; the ephemeral fields are gone. -/
theorem decodeSavedState_save (s : TimerState) :
    decodeSavedState (save_state_to_file s)
      = some ⟨s.current_mode, s.remaining_time, s.daily_work_totals⟩ := by
  simp [decodeSavedState, save_state_to_file, jsonGet,
    parseMode_modeString, decodeTotals_encodeTotals]

/-- What `save_state_to_file` writes is a non-empty JSON object, hence
truthy on reload. -/
theorem truthy_save (s : TimerState) :
    truthy (save_state_to_file s) = true := rfl

/-- C8: persisting any engine state and reloading it without a
`--start-minutes` override restores the persisted `remaining_time` and
`daily_work_totals` unchanged (the ephemeral fields were stripped on save
and are reset on load), while the restored mode is the configured start
mode — the code overrides the persisted mode whenever it differs, so the
persisted mode survives exactly when it equals the configured start mode
(whose default is work). -/
theorem snapshot_round_trip (s : TimerState) (args : Args)
    (hmin : args.start_minutes = none) :
    ∃ r, initTimerState (some (save_state_to_file s)) args = some r ∧
      r.remaining_time = s.remaining_time ∧
      r.daily_work_totals = s.daily_work_totals ∧
      r.current_mode = args.start_mode ∧
      (s.current_mode = args.start_mode → r.current_mode = s.current_mode) := by
  refine ⟨reconcile ⟨s.current_mode, s.remaining_time, s.daily_work_totals⟩
    args, ?_, ?_, ?_, ?_, ?_⟩
  · show (if truthy (save_state_to_file s) = true then
        Option.map (fun ld => reconcile ld args)
          (decodeSavedState (save_state_to_file s))
      else some (freshState args)) = _
    rw [truthy_save, decodeSavedState_save]
    rfl
  · show (match args.start_minutes with
      | some sm => sm * 60
      | none => s.remaining_time) = s.remaining_time
    rw [hmin]
  · rfl
  · show (if s.current_mode ≠ args.start_mode then args.start_mode
      else s.current_mode) = args.start_mode
    by_cases h : s.current_mode = args.start_mode
    · rw [if_neg (by simp [h]), h]
    · rw [if_pos h]
  · intro h
    show (if s.current_mode ≠ args.start_mode then args.start_mode
      else s.current_mode) = s.current_mode
    rw [if_neg (by simp [h])]

/-- Witness for C8: a Break-mode state with a non-trivial ledger saved and
reloaded under the default configuration. -/
theorem snapshot_round_trip_witness :
    ∃ r, initTimerState
        (some (save_state_to_file ⟨Mode.brk, 600, [("d", 42)], true, 5⟩))
        ⟨30, 30, Mode.work, none⟩ = some r ∧
      r.remaining_time = (600 : ℚ) ∧
      r.daily_work_totals = [("d", 42)] ∧
      r.current_mode = Mode.work ∧
      (Mode.brk = Mode.work → r.current_mode = Mode.brk) :=
  snapshot_round_trip ⟨Mode.brk, 600, [("d", 42)], true, 5⟩
    ⟨30, 30, Mode.work, none⟩ rfl

/-- C9 (the code side of the claim): `output` reads
`state["daily_work_totals"][today_str]` by direct indexing, so when the
ledger has no entry for today the lookup yields nothing (a Python
`KeyError`) instead of the zero render `"00:00"` the spec requires; the
renderer itself would display `"00:00"` for a zero total. -/
theorem output_missing_today_key :
    outputTotalWork ⟨Mode.work, 1800, [], true, 0⟩ "2024-01-01" = none ∧
    formatTotalWork 0 = "00:00" := by
  constructor
  · rfl
  · norm_num [formatTotalWork, pad2]
    rfl

/-- C10: a state file holding valid JSON that parses to a falsy value is
silently treated as no prior state (`if not state:`), and startup builds
the fresh configuration-derived state instead of failing. -/
theorem falsy_snapshot_fresh_start (v : JsonValue) (args : Args)
    (hv : truthy v = false) :
    initTimerState (some v) args = some (freshState args) := by
  show (if truthy v = true then
      Option.map (fun ld => reconcile ld args) (decodeSavedState v)
    else some (freshState args)) = some (freshState args)
  rw [hv]
  simp

/-- Witness for C10 on the five falsy snapshot payloads of the claim. -/
theorem falsy_snapshot_fresh_start_witness :
    (truthy (JsonValue.obj []) = false ∧
      initTimerState (some (JsonValue.obj [])) ⟨30, 30, Mode.work, none⟩
        = some (freshState ⟨30, 30, Mode.work, none⟩)) ∧
    (truthy JsonValue.null = false ∧
      initTimerState (some JsonValue.null) ⟨30, 30, Mode.work, none⟩
        = some (freshState ⟨30, 30, Mode.work, none⟩)) ∧
    (truthy (JsonValue.bool false) = false ∧
      initTimerState (some (JsonValue.bool false))
        ⟨30, 30, Mode.work, none⟩
        = some (freshState ⟨30, 30, Mode.work, none⟩)) ∧
    (truthy (JsonValue.num 0) = false ∧
      initTimerState (some (JsonValue.num 0)) ⟨30, 30, Mode.work, none⟩
        = some (freshState ⟨30, 30, Mode.work, none⟩)) ∧
    (truthy (JsonValue.str "") = false ∧
      initTimerState (some (JsonValue.str "")) ⟨30, 30, Mode.work, none⟩
        = some (freshState ⟨30, 30, Mode.work, none⟩)) := by
  have hnum : truthy (JsonValue.num 0) = false := by
    simp [truthy]
  have hstr : truthy (JsonValue.str "") = false := by
    simp [truthy]
  exact ⟨⟨rfl, falsy_snapshot_fresh_start _ _ rfl⟩,
    ⟨rfl, falsy_snapshot_fresh_start _ _ rfl⟩,
    ⟨rfl, falsy_snapshot_fresh_start _ _ rfl⟩,
    ⟨hnum, falsy_snapshot_fresh_start _ _ hnum⟩,
    ⟨hstr, falsy_snapshot_fresh_start _ _ hstr⟩⟩

end Pomodoro
